import Mathlib

/-!
Shallow embedding of `data-science/src/train.py` from the
mlops-project-template repository (classical/aml-cli-v2 flavour).

The script is a straight-line training job: parse CLI arguments, read
`train.csv`, split into target and features, compose a preprocessing +
random-forest pipeline, log hyperparameters, fit, predict on the training
set, compute four regression metrics, log them, save a scatter plot, and
pickle the model.  We embed the script as a pure function from its inputs
(parsed arguments and the contents of `train.csv`) to a trace of observable
effects plus a final result.  The sklearn fit/predict internals are out of
scope (per the spec) and are taken as explicit function parameters; float
values are embedded as exact rationals, and `np.sqrt` symbolically with a
real-number semantics.
-/

namespace Train

/-- Value stored in one CSV cell: a number, a string, or a missing value. -/
inductive Cell where
  | num (q : ℚ)
  | str (s : String)
  | na
  deriving DecidableEq, Repr

/-- Numeric reading of a cell (targets are numeric in every meaningful run). -/
def Cell.toRat : Cell → ℚ
  | .num q => q
  | _ => 0

/-- A loaded CSV file: ordered association of column name to column values,
as produced by `pd.read_csv` (column names are unique after pandas mangling). -/
abbrev Table := List (String × List Cell)

/-- Column selection `df[c]`: first column with the given name, `none`
models the `KeyError` pandas raises when the column is absent. -/
def getCol : Table → String → Option (List Cell)
  | [], _ => none
  | (name, col) :: rest, c => if name = c then some col else getCol rest c

/-- Column-list selection `df[cs]` (the feature matrix, one entry per
requested column, in the requested order); `none` models the `KeyError`
raised when any requested column is absent. -/
def selectCols (t : Table) : List String → Option (List (List Cell))
  | [] => some []
  | c :: rest =>
    match getCol t c, selectCols t rest with
    | some col, some m => some (col :: m)
    | _, _ => none

/-- Source line 23: `TARGET_COL = "cost"`. -/
def TARGET_COL : String := "cost"

/-- Source lines 25-44: the 18 declared numeric feature columns. -/
def NUMERIC_COLS : List String :=
  ["distance", "dropoff_latitude", "dropoff_longitude", "passengers",
   "pickup_latitude", "pickup_longitude", "pickup_weekday", "pickup_month",
   "pickup_monthday", "pickup_hour", "pickup_minute", "pickup_second",
   "dropoff_weekday", "dropoff_month", "dropoff_monthday", "dropoff_hour",
   "dropoff_minute", "dropoff_second"]

/-- Source lines 46-49: the 2 nominal categorical columns. -/
def CAT_NOM_COLS : List String := ["store_forward", "vendor"]

/-- Source lines 51-52: the ordinal categorical columns (empty). -/
def CAT_ORD_COLS : List String := []

/-- Source line 99: `X_train = train_data[NUMERIC_COLS + CAT_NOM_COLS + CAT_ORD_COLS]`. -/
def featureCols : List String := NUMERIC_COLS ++ CAT_NOM_COLS ++ CAT_ORD_COLS

/-- Columns the script reads from `train.csv`: the features plus the target. -/
def requiredCols : List String := featureCols ++ [TARGET_COL]

/-- Parsed argument namespace of `parse_args` (source lines 55-77), with the
argparse defaults as field defaults.  The two path options carry no
`required=True` and no default, so argparse leaves them as `None` when
omitted: hence `Option String` with default `none`. -/
structure Args where
  prepared_data : Option String := none
  model_output : Option String := none
  regressor__n_estimators : Int := 500
  regressor__bootstrap : Int := 1
  regressor__max_depth : Int := 10
  regressor__max_features : String := "auto"
  regressor__min_samples_leaf : Int := 4
  regressor__min_samples_split : Int := 5
  deriving DecidableEq, Repr

/-- The six regressor hyperparameter option flags registered by `parse_args`
(source lines 62-74, one `add_argument` call each). -/
def regressorFlags : List String :=
  ["--regressor__n_estimators", "--regressor__bootstrap",
   "--regressor__max_depth", "--regressor__max_features",
   "--regressor__min_samples_leaf", "--regressor__min_samples_split"]

/-- All option flags registered by `parse_args` (source lines 58-74). -/
def allFlags : List String := ["--prepared_data", "--model_output"] ++ regressorFlags

/-- Decimal digits of an integer literal, accumulator style; `none` when a
non-digit character appears. -/
def parseNatDigits : List Char → Nat → Option Nat
  | [], acc => some acc
  | c :: rest, acc =>
    if c.isDigit then parseNatDigits rest (acc * 10 + (c.toNat - 48)) else none

/-- Semantics of the `type=int` conversion argparse applies to an option
value (Python `int()` on a decimal string literal, with an optional sign). -/
def pyToInt? (s : String) : Option Int :=
  match s.data with
  | [] => none
  | '-' :: rest =>
    if rest = [] then none else (parseNatDigits rest 0).map (fun n => -(n : Int))
  | '+' :: rest =>
    if rest = [] then none else (parseNatDigits rest 0).map (fun n => (n : Int))
  | cs => (parseNatDigits cs 0).map (fun n => (n : Int))

/-- Tail-recursive embedding of argparse over `--flag value` token pairs.
Each recognized flag consumes its value and updates the namespace; an
integer-typed option rejects a non-integer value (argparse type error,
exit 2); an unrecognized token or a flag without a value is an argparse
error (exit 2). -/
def parse_args_aux : List String → Args → Except String Args
  | [], a => .ok a
  | "--prepared_data" :: v :: rest, a =>
    parse_args_aux rest { a with prepared_data := some v }
  | "--model_output" :: v :: rest, a =>
    parse_args_aux rest { a with model_output := some v }
  | "--regressor__n_estimators" :: v :: rest, a =>
    match pyToInt? v with
    | some n => parse_args_aux rest { a with regressor__n_estimators := n }
    | none => .error ("argument --regressor__n_estimators: invalid int value: " ++ v)
  | "--regressor__bootstrap" :: v :: rest, a =>
    match pyToInt? v with
    | some n => parse_args_aux rest { a with regressor__bootstrap := n }
    | none => .error ("argument --regressor__bootstrap: invalid int value: " ++ v)
  | "--regressor__max_depth" :: v :: rest, a =>
    match pyToInt? v with
    | some n => parse_args_aux rest { a with regressor__max_depth := n }
    | none => .error ("argument --regressor__max_depth: invalid int value: " ++ v)
  | "--regressor__max_features" :: v :: rest, a =>
    parse_args_aux rest { a with regressor__max_features := v }
  | "--regressor__min_samples_leaf" :: v :: rest, a =>
    match pyToInt? v with
    | some n => parse_args_aux rest { a with regressor__min_samples_leaf := n }
    | none => .error ("argument --regressor__min_samples_leaf: invalid int value: " ++ v)
  | "--regressor__min_samples_split" :: v :: rest, a =>
    match pyToInt? v with
    | some n => parse_args_aux rest { a with regressor__min_samples_split := n }
    | none => .error ("argument --regressor__min_samples_split: invalid int value: " ++ v)
  | tok :: _, _ => .error ("unrecognized arguments: " ++ tok)

/-- Embedding of `parse_args()` (source lines 55-77): fold the command line
over the defaulted namespace. -/
def parse_args (toks : List String) : Except String Args :=
  parse_args_aux toks {}

instance : DecidableEq (Except String Args) := fun x y =>
  match x, y with
  | .ok a, .ok b => if h : a = b then isTrue (by rw [h]) else isFalse (by simp [h])
  | .error a, .error b => if h : a = b then isTrue (by rw [h]) else isFalse (by simp [h])
  | .ok _, .error _ => isFalse (by simp)
  | .error _, .ok _ => isFalse (by simp)

/-- Configuration handed to `RandomForestRegressor` (source lines 134-142). -/
structure RFConfig where
  n_estimators : Int
  bootstrap : Int
  max_depth : Int
  max_features : String
  min_samples_leaf : Int
  min_samples_split : Int
  random_state : Int
  deriving DecidableEq, Repr

/-- Source lines 134-142: the regressor is configured verbatim from the
parsed arguments, with the hard-coded `random_state=0`. -/
def rfConfig (a : Args) : RFConfig :=
  { n_estimators := a.regressor__n_estimators
    bootstrap := a.regressor__bootstrap
    max_depth := a.regressor__max_depth
    max_features := a.regressor__max_features
    min_samples_leaf := a.regressor__min_samples_leaf
    min_samples_split := a.regressor__min_samples_split
    random_state := 0 }

/-- Arithmetic mean, `np.mean` semantics over exact rationals. -/
def mean (l : List ℚ) : ℚ := l.sum / l.length

/-- Library semantics of `mean_squared_error(y, yhat)`. -/
def mean_squared_error (y yhat : List ℚ) : ℚ :=
  ((y.zip yhat).map (fun p => (p.1 - p.2) ^ 2)).sum / y.length

/-- Library semantics of `mean_absolute_error(y, yhat)`. -/
def mean_absolute_error (y yhat : List ℚ) : ℚ :=
  ((y.zip yhat).map (fun p => |p.1 - p.2|)).sum / y.length

/-- A float value logged with `mlflow.log_metric`: an exact rational, the
square root of one (`np.sqrt(mse)` on source line 161), or NaN (which
`r2_score` returns on fewer than two samples). -/
inductive MetricVal where
  | rat (q : ℚ)
  | sqrtOf (q : ℚ)
  | nan
  deriving DecidableEq, Repr

/-- Real-number semantics of a logged metric value; NaN has none. -/
noncomputable def MetricVal.toReal : MetricVal → Option ℝ
  | .rat q => some (q : ℝ)
  | .sqrtOf q => some (Real.sqrt (q : ℝ))
  | .nan => none

/-- Library semantics of `r2_score(y, yhat)`.  With fewer than two samples
the library warns that the score is not well-defined and returns NaN (with
zero samples its upstream input validation raises instead, a point no real
run reaches because the regressor's fit already raises on an empty design
matrix).  Otherwise the score is one minus the ratio of residual to total
sum of squares, with the degenerate-case convention for a constant target:
1 on a perfect fit, 0 otherwise. -/
def r2_score (y yhat : List ℚ) : MetricVal :=
  if y.length < 2 then .nan
  else if (y.map (fun v => (v - mean y) ^ 2)).sum = 0 then
    (if ((y.zip yhat).map (fun p => (p.1 - p.2) ^ 2)).sum = 0 then .rat 1
     else .rat 0)
  else .rat (1 - ((y.zip yhat).map (fun p => (p.1 - p.2) ^ 2)).sum /
    (y.map (fun v => (v - mean y) ^ 2)).sum)

/-- A value logged with `mlflow.log_param`. -/
inductive PVal where
  | int (n : Int)
  | str (s : String)
  deriving DecidableEq, Repr

/-- Observable effects of one run of `main`, in program order. -/
inductive Event where
  | print (s : String)
  | listDir (p : Option String)
  | readCsv (p : String)
  | logParam (key : String) (v : PVal)
  | fitEv (cfg : RFConfig) (X : List (List Cell)) (y : List Cell)
  | predictEv (X : List (List Cell))
  | logMetric (key : String) (v : MetricVal)
  | savePng (path : String)
  | logArtifact (path : String)
  | writeModel (path : String)
  deriving DecidableEq, Repr

/-- Outcome of the process: clean exit or an uncaught exception. -/
inductive RResult where
  | ok
  | error (msg : String)
  deriving DecidableEq, Repr

/-- Trace of effects plus final outcome of one run of `main`. -/
structure RunOut where
  trace : List Event
  result : RResult
  deriving DecidableEq, Repr

/-- Python f-string rendering of an optional path (`None` when absent). -/
def pyOptStr : Option String → String
  | none => "None"
  | some s => s

/-- Effects of source lines 83-93: the two banner prints, the
"mounted_path files" print and `os.listdir(args.prepared_data)` (which,
given `None`, lists the current directory and succeeds). -/
def preTrace (a : Args) : List Event :=
  [.print ("Training data path: " ++ pyOptStr a.prepared_data),
   .print ("Model output path: " ++ pyOptStr a.model_output),
   .print "mounted_path files: ",
   .listDir a.prepared_data]

/-- Effects up to and including the successful `pd.read_csv` of source
line 95. -/
def loadTrace (a : Args) (d : String) : List Event :=
  preTrace a ++ [.readCsv (d ++ "/train.csv")]

/-- Effects of source lines 144-151: the eight `mlflow.log_param` calls,
one fixed model name and the seven parsed hyperparameter values. -/
def paramTrace (a : Args) : List Event :=
  [.logParam "model" (.str "RandomForestRegressor"),
   .logParam "n_estimators" (.int a.regressor__n_estimators),
   .logParam "bootstrap" (.int a.regressor__bootstrap),
   .logParam "max_depth" (.int a.regressor__max_depth),
   .logParam "max_features" (.str a.regressor__max_features),
   .logParam "min_samples_leaf" (.int a.regressor__min_samples_leaf),
   .logParam "min_samples_split" (.int a.regressor__min_samples_split)]

/-- Effects of source lines 163-166: the four `mlflow.log_metric` calls on
the metric values of source lines 157-161, computed from the training
target and the training-set predictions. -/
def metricTrace (y yhat : List ℚ) : List Event :=
  [.logMetric "train r2" (r2_score y yhat),
   .logMetric "train mse" (.rat (mean_squared_error y yhat)),
   .logMetric "train rmse" (.sqrtOf (mean_squared_error y yhat)),
   .logMetric "train mae" (.rat (mean_absolute_error y yhat))]

/-- Embedding of `main` (source lines 79-177).  `fit` and `predict` stand
for the sklearn pipeline internals (out of scope per the spec): `fit`
returns `none` when fitting raises (bad hyperparameter string, NaN in a
numeric column, non-numeric target), and `predict` is the fitted model's
deterministic prediction function.  `csv` is the parsed content of
`<prepared_data>/train.csv`, `none` when the file is absent.  Failure
branches reproduce the Python exceptions: `Path(None)` raises `TypeError`,
`pd.read_csv` raises `FileNotFoundError`, column selection raises
`KeyError`, and `pickle.dump(open(Path(None) / ...))` raises `TypeError`
after the plot has been saved. -/
def run {Model : Type} (fit : RFConfig → List (List Cell) → List Cell → Option Model)
    (predict : Model → List (List Cell) → List ℚ)
    (a : Args) (csv : Option Table) : RunOut :=
  match a.prepared_data with
  | none =>
    ⟨preTrace a, .error "TypeError: expected str, bytes or os.PathLike object, not NoneType"⟩
  | some d =>
    match csv with
    | none => ⟨preTrace a, .error ("FileNotFoundError: " ++ d ++ "/train.csv")⟩
    | some t =>
      match getCol t TARGET_COL with
      | none => ⟨loadTrace a d, .error ("KeyError: " ++ TARGET_COL)⟩
      | some y =>
        match selectCols t featureCols with
        | none => ⟨loadTrace a d, .error "KeyError: missing feature columns"⟩
        | some X =>
          match fit (rfConfig a) X y with
          | none =>
            ⟨loadTrace a d ++ paramTrace a ++ [.fitEv (rfConfig a) X y],
             .error "fit raised"⟩
          | some m =>
            let yhat := predict m X
            let yq := y.map Cell.toRat
            let base := loadTrace a d ++ paramTrace a ++
              [.fitEv (rfConfig a) X y, .predictEv X] ++
              metricTrace yq yhat ++
              [.savePng "regression_results.png",
               .logArtifact "regression_results.png"]
            match a.model_output with
            | none =>
              ⟨base, .error "TypeError: expected str, bytes or os.PathLike object, not NoneType"⟩
            | some mo => ⟨base ++ [.writeModel (mo ++ "/model.pkl")], .ok⟩

/-- First metric value logged under the given key, if any. -/
def findMetric : List Event → String → Option MetricVal
  | [], _ => none
  | .logMetric k v :: rest, key => if k = key then some v else findMetric rest key
  | _ :: rest, key => findMetric rest key

/-- Whether an event is a hyperparameter/parameter log call. -/
def Event.isLogParam : Event → Bool
  | .logParam _ _ => true
  | _ => false

/-- Whether an event is a metric log call. -/
def Event.isLogMetric : Event → Bool
  | .logMetric _ _ => true
  | _ => false

/-- Whether an event is a pipeline-fit invocation. -/
def Event.isFit : Event → Bool
  | .fitEv _ _ _ => true
  | _ => false

/-- Whether an event writes an output file (the plot or the pickled model). -/
def Event.isOutput : Event → Bool
  | .savePng _ => true
  | .writeModel _ => true
  | _ => false

/-- Trivial stand-in for the sklearn fit step, used to instantiate the
abstract library parameter on concrete runs. -/
def sampleFit : RFConfig → List (List Cell) → List Cell → Option Unit :=
  fun _ _ _ => some ()

/-- Stand-in fit step that always raises, for exercising the fit-failure
branch on concrete runs. -/
def failFit : RFConfig → List (List Cell) → List Cell → Option Unit :=
  fun _ _ _ => none

/-- Trivial stand-in for the fitted model's prediction function. -/
def samplePredict : Unit → List (List Cell) → List ℚ :=
  fun _ _ => []

/-- A one-row table carrying every column the script requires. -/
def sampleTable : Table :=
  [("distance", [.num 2]), ("dropoff_latitude", [.num 40]),
   ("dropoff_longitude", [.num (-73)]), ("passengers", [.num 1]),
   ("pickup_latitude", [.num 40]), ("pickup_longitude", [.num (-73)]),
   ("pickup_weekday", [.num 3]), ("pickup_month", [.num 5]),
   ("pickup_monthday", [.num 17]), ("pickup_hour", [.num 9]),
   ("pickup_minute", [.num 30]), ("pickup_second", [.num 0]),
   ("dropoff_weekday", [.num 3]), ("dropoff_month", [.num 5]),
   ("dropoff_monthday", [.num 17]), ("dropoff_hour", [.num 9]),
   ("dropoff_minute", [.num 45]), ("dropoff_second", [.num 0]),
   ("store_forward", [.str "N"]), ("vendor", [.str "1"]),
   ("cost", [.num 12])]

/-- Arguments with both paths supplied and every hyperparameter defaulted. -/
def sampleArgs : Args :=
  { prepared_data := some "data", model_output := some "out" }

/-- The feature matrix the script selects from `sampleTable`. -/
def sampleX : List (List Cell) :=
  [[.num 2], [.num 40], [.num (-73)], [.num 1], [.num 40], [.num (-73)],
   [.num 3], [.num 5], [.num 17], [.num 9], [.num 30], [.num 0],
   [.num 3], [.num 5], [.num 17], [.num 9], [.num 45], [.num 0],
   [.str "N"], [.str "1"]]

/-- The target vector the script selects from `sampleTable`. -/
def sampleY : List Cell := [.num 12]

/-- Column selection only looks up the requested names: two tables that
agree on those lookups select the same matrix. -/
theorem selectCols_congr {t₁ t₂ : Table} : ∀ {cs : List String},
    (∀ c ∈ cs, getCol t₁ c = getCol t₂ c) → selectCols t₁ cs = selectCols t₂ cs
  | [], _ => rfl
  | c :: rest, h => by
    have hc : getCol t₁ c = getCol t₂ c := h c (List.mem_cons_self c rest)
    have hr : selectCols t₁ rest = selectCols t₂ rest :=
      selectCols_congr (fun x hx => h x (List.mem_cons_of_mem c hx))
    simp only [selectCols, hc, hr]

/-- Column selection fails when any requested column is absent. -/
theorem selectCols_none {t : Table} {c : String} : ∀ {cs : List String},
    c ∈ cs → getCol t c = none → selectCols t cs = none
  | [], h, _ => absurd h (List.not_mem_nil c)
  | c' :: rest, h, hmiss => by
    rcases List.mem_cons.mp h with h' | h'
    · subst h'
      simp only [selectCols, hmiss]
    · have hr := selectCols_none h' hmiss
      simp only [selectCols, hr]
      cases getCol t c' <;> rfl

/-- The residual sum of squares is nonnegative. -/
theorem ssRes_nonneg (y yhat : List ℚ) :
    0 ≤ ((y.zip yhat).map (fun p => (p.1 - p.2) ^ 2)).sum := by
  apply List.sum_nonneg
  intro x hx
  obtain ⟨p, _, rfl⟩ := List.mem_map.mp hx
  exact sq_nonneg _

/-- The total sum of squares is nonnegative. -/
theorem ssTot_nonneg (y : List ℚ) :
    0 ≤ (y.map (fun v => (v - mean y) ^ 2)).sum := by
  apply List.sum_nonneg
  intro x hx
  obtain ⟨v, _, rfl⟩ := List.mem_map.mp hx
  exact sq_nonneg _

/-- The coefficient of determination is NaN exactly on the library's
fewer-than-two-samples guard. -/
theorem r2_score_nan_iff (y yhat : List ℚ) :
    r2_score y yhat = MetricVal.nan ↔ y.length < 2 := by
  unfold r2_score
  by_cases hlen : y.length < 2
  · simp [hlen]
  · simp only [hlen, if_false, reduceIte]
    split
    · split <;> simp [hlen]
    · simp [hlen]

/-- When the guard passes, the returned coefficient is a rational at most
one. -/
theorem r2_score_rat_le_one (y yhat : List ℚ) (q : ℚ)
    (h : r2_score y yhat = MetricVal.rat q) : q ≤ 1 := by
  unfold r2_score at h
  by_cases hlen : y.length < 2
  · rw [if_pos hlen] at h
    exact absurd h (by simp)
  · rw [if_neg hlen] at h
    by_cases hTot : (y.map (fun v => (v - mean y) ^ 2)).sum = 0
    · rw [if_pos hTot] at h
      by_cases hRes : ((y.zip yhat).map (fun p => (p.1 - p.2) ^ 2)).sum = 0
      · rw [if_pos hRes] at h
        injection h with h'
        rw [← h']
      · rw [if_neg hRes] at h
        injection h with h'
        rw [← h']
        norm_num
    · rw [if_neg hTot] at h
      injection h with h'
      rw [← h']
      have hnum := ssRes_nonneg y yhat
      have hden : 0 < (y.map (fun v => (v - mean y) ^ 2)).sum :=
        lt_of_le_of_ne (ssTot_nonneg y) (Ne.symm hTot)
      have hdiv := div_nonneg hnum hden.le
      linarith

/-- Every value `r2_score` returns is NaN or a rational at most one. -/
theorem r2_score_cases (y yhat : List ℚ) :
    r2_score y yhat = MetricVal.nan ∨
    ∃ q : ℚ, r2_score y yhat = MetricVal.rat q ∧ q ≤ 1 := by
  cases hr : r2_score y yhat with
  | nan => exact Or.inl rfl
  | rat q => exact Or.inr ⟨q, rfl, r2_score_rat_le_one y yhat q hr⟩
  | sqrtOf q =>
    exfalso
    revert hr
    unfold r2_score
    by_cases hlen : y.length < 2
    · simp [hlen]
    · simp only [hlen, if_false, reduceIte]
      split
      · split <;> simp
      · simp

/-- A hyperparameter option that never occurs on the command line keeps its
incoming value through argparse processing, for each of the six regressor
options. -/
theorem parse_args_aux_preserve (toks : List String) (a : Args) :
    ∀ b : Args, parse_args_aux toks a = .ok b →
    ("--regressor__n_estimators" ∉ toks →
      b.regressor__n_estimators = a.regressor__n_estimators) ∧
    ("--regressor__bootstrap" ∉ toks →
      b.regressor__bootstrap = a.regressor__bootstrap) ∧
    ("--regressor__max_depth" ∉ toks →
      b.regressor__max_depth = a.regressor__max_depth) ∧
    ("--regressor__max_features" ∉ toks →
      b.regressor__max_features = a.regressor__max_features) ∧
    ("--regressor__min_samples_leaf" ∉ toks →
      b.regressor__min_samples_leaf = a.regressor__min_samples_leaf) ∧
    ("--regressor__min_samples_split" ∉ toks →
      b.regressor__min_samples_split = a.regressor__min_samples_split) := by
  induction toks, a using parse_args_aux.induct <;> intro b h <;>
    simp only [parse_args_aux] at h
  case case1 a =>
    cases h
    simp
  all_goals first
  | exact absurd h (by simp)
  | (rename_i hn ih
     rw [hn] at h
     have := ih b h
     simp_all [List.mem_cons])
  | (rename_i ih
     have := ih b h
     simp_all [List.mem_cons])
  | (rename_i hn
     rw [hn] at h
     exact absurd h (by simp))

/-- Whether an event writes the pickled model. -/
def Event.isWriteModel : Event → Bool
  | .writeModel _ => true
  | _ => false

/-- C1, counterexample: the claim says the intake accepts seven
hyperparameter options, but `parse_args` registers exactly six regressor
options, and a would-be seventh such as `--regressor__random_state` is
rejected as an unrecognized argument. -/
theorem c1_seven_options_refuted :
    regressorFlags.length = 6 ∧ regressorFlags.length ≠ 7 ∧
    parse_args ["--regressor__random_state", "0"] =
      .error "unrecognized arguments: --regressor__random_state" := by
  refine ⟨rfl, by decide, rfl⟩

/-- C1 (amended): argument intake accepts two path-valued options and six
hyperparameter options; when a hyperparameter option is omitted its
default is used (n_estimators=500, bootstrap=1, max_depth=10,
max_features="auto", min_samples_leaf=4, min_samples_split=5), and the
regressor in the composed pipeline is configured verbatim from the parsed
values (with the hard-coded random_state=0). -/
theorem c1_argument_intake :
    regressorFlags.length = 6 ∧
    parse_args [] = .ok
      { prepared_data := none, model_output := none,
        regressor__n_estimators := 500, regressor__bootstrap := 1,
        regressor__max_depth := 10, regressor__max_features := "auto",
        regressor__min_samples_leaf := 4, regressor__min_samples_split := 5 } ∧
    parse_args ["--prepared_data", "p", "--model_output", "m",
        "--regressor__n_estimators", "7", "--regressor__bootstrap", "0",
        "--regressor__max_depth", "3", "--regressor__max_features", "sqrt",
        "--regressor__min_samples_leaf", "2",
        "--regressor__min_samples_split", "8"] =
      .ok { prepared_data := some "p", model_output := some "m",
            regressor__n_estimators := 7, regressor__bootstrap := 0,
            regressor__max_depth := 3, regressor__max_features := "sqrt",
            regressor__min_samples_leaf := 2, regressor__min_samples_split := 8 } ∧
    (∀ toks b, parse_args toks = .ok b →
      ("--regressor__n_estimators" ∉ toks → b.regressor__n_estimators = 500) ∧
      ("--regressor__bootstrap" ∉ toks → b.regressor__bootstrap = 1) ∧
      ("--regressor__max_depth" ∉ toks → b.regressor__max_depth = 10) ∧
      ("--regressor__max_features" ∉ toks → b.regressor__max_features = "auto") ∧
      ("--regressor__min_samples_leaf" ∉ toks → b.regressor__min_samples_leaf = 4) ∧
      ("--regressor__min_samples_split" ∉ toks → b.regressor__min_samples_split = 5)) ∧
    (∀ a : Args, rfConfig a =
      { n_estimators := a.regressor__n_estimators,
        bootstrap := a.regressor__bootstrap,
        max_depth := a.regressor__max_depth,
        max_features := a.regressor__max_features,
        min_samples_leaf := a.regressor__min_samples_leaf,
        min_samples_split := a.regressor__min_samples_split,
        random_state := 0 }) := by
  refine ⟨rfl, by decide, by decide, ?_, fun a => rfl⟩
  intro toks b h
  exact parse_args_aux_preserve toks {} b h

/-- C1 witness: omitting every hyperparameter option on a concrete command
line leaves all six at their defaults. -/
theorem c1_argument_intake_witness :
    parse_args ["--model_output", "m"] =
      .ok ({ model_output := some "m" } : Args) ∧
    ("--regressor__n_estimators" ∉ (["--model_output", "m"] : List String)) ∧
    ({ model_output := some "m" } : Args).regressor__n_estimators = 500 :=
  ⟨by decide, by decide,
   ((c1_argument_intake.2.2.2.1 ["--model_output", "m"] _ (by decide)).1 (by decide))⟩

/-- C3: with the library internals fixed (they are deterministic functions
of the configuration, which pins random_state to 0), two runs on identical
arguments and identical train.csv contents produce identical traces, hence
identical logged metric values. -/
theorem c3_deterministic {Model : Type}
    (fit : RFConfig → List (List Cell) → List Cell → Option Model)
    (predict : Model → List (List Cell) → List ℚ)
    (a₁ a₂ : Args) (csv₁ csv₂ : Option Table)
    (hargs : a₁ = a₂) (hcsv : csv₁ = csv₂) :
    run fit predict a₁ csv₁ = run fit predict a₂ csv₂ ∧
    (rfConfig a₁).random_state = 0 := by
  subst hargs
  subst hcsv
  exact ⟨rfl, rfl⟩

/-- C3 witness: a concrete re-run on the sample inputs. -/
theorem c3_deterministic_witness :
    sampleArgs = sampleArgs ∧ (some sampleTable : Option Table) = some sampleTable ∧
    (run sampleFit samplePredict sampleArgs (some sampleTable) =
      run sampleFit samplePredict sampleArgs (some sampleTable) ∧
     (rfConfig sampleArgs).random_state = 0) :=
  ⟨rfl, rfl, c3_deterministic sampleFit samplePredict _ _ _ _ rfl rfl⟩

/-- C4: the run only reads the 18 numeric columns, the 2 nominal columns
and the cost column; two tables agreeing on those lookups give identical
run outputs (fitted pipeline inputs, metrics and all), regardless of extra
columns or column order. -/
theorem c4_extra_columns_irrelevant {Model : Type}
    (fit : RFConfig → List (List Cell) → List Cell → Option Model)
    (predict : Model → List (List Cell) → List ℚ)
    (a : Args) (t₁ t₂ : Table)
    (h : ∀ c ∈ requiredCols, getCol t₁ c = getCol t₂ c) :
    run fit predict a (some t₁) = run fit predict a (some t₂) := by
  have hy : getCol t₁ TARGET_COL = getCol t₂ TARGET_COL :=
    h TARGET_COL (by decide)
  have hX : selectCols t₁ featureCols = selectCols t₂ featureCols :=
    selectCols_congr (fun c hc => h c (List.mem_append_left _ hc))
  cases hpd : a.prepared_data with
  | none => simp [run, hpd]
  | some d => simp only [run, hpd, hy, hX]

/-- C4 witness: appending an extra column to the sample table does not
change the run output. -/
theorem c4_extra_columns_irrelevant_witness :
    (∀ c ∈ requiredCols,
      getCol (sampleTable ++ [("extra_column", [Cell.num 99])]) c =
      getCol sampleTable c) ∧
    run sampleFit samplePredict sampleArgs
        (some (sampleTable ++ [("extra_column", [Cell.num 99])])) =
      run sampleFit samplePredict sampleArgs (some sampleTable) :=
  ⟨by decide,
   c4_extra_columns_irrelevant sampleFit samplePredict sampleArgs _ _ (by decide)⟩

/-- C5: a table missing any required column makes the run terminate with an
uncaught error, and neither the plot nor the model file is ever written. -/
theorem c5_missing_column_fatal {Model : Type}
    (fit : RFConfig → List (List Cell) → List Cell → Option Model)
    (predict : Model → List (List Cell) → List ℚ)
    (a : Args) (t : Table) (c : String)
    (hc : c ∈ requiredCols) (hmiss : getCol t c = none) :
    (run fit predict a (some t)).result ≠ RResult.ok ∧
    (run fit predict a (some t)).trace.countP Event.isOutput = 0 := by
  have hsplit : getCol t TARGET_COL = none ∨ selectCols t featureCols = none := by
    simp only [requiredCols, List.mem_append, List.mem_singleton] at hc
    rcases hc with hf | ht
    · exact Or.inr (selectCols_none hf hmiss)
    · exact Or.inl (ht ▸ hmiss)
  cases hpd : a.prepared_data with
  | none => constructor <;> simp [run, hpd, preTrace, Event.isOutput]
  | some d =>
    cases hy : getCol t TARGET_COL with
    | none =>
      constructor <;> simp [run, hpd, hy, loadTrace, preTrace, Event.isOutput]
    | some y =>
      rcases hsplit with h | h
      · rw [hy] at h
        cases h
      · constructor <;>
          simp [run, hpd, hy, h, loadTrace, preTrace, Event.isOutput]

/-- C5 witness: dropping the `distance` column from the sample table. -/
theorem c5_missing_column_fatal_witness :
    "distance" ∈ requiredCols ∧
    getCol (sampleTable.filter (fun p => p.1 ≠ "distance")) "distance" = none ∧
    ((run sampleFit samplePredict sampleArgs
        (some (sampleTable.filter (fun p => p.1 ≠ "distance")))).result ≠ RResult.ok ∧
     (run sampleFit samplePredict sampleArgs
        (some (sampleTable.filter (fun p => p.1 ≠ "distance")))).trace.countP
        Event.isOutput = 0) :=
  ⟨by decide, by decide,
   c5_missing_column_fatal sampleFit samplePredict sampleArgs _ "distance"
     (by decide) (by decide)⟩

/-- C7, counterexample: omitting `--model_output` does not terminate
argument parsing with a usage message; the run then loads the data, fits,
and even writes the plot before dying with an uncaught TypeError at the
final model write.  So work very much begins despite the missing option. -/
theorem c7_immediate_usage_refuted :
    parse_args ["--prepared_data", "data"] =
      .ok ({ prepared_data := some "data" } : Args) ∧
    (run sampleFit samplePredict ({ prepared_data := some "data" } : Args)
        (some sampleTable)).result =
      .error "TypeError: expected str, bytes or os.PathLike object, not NoneType" ∧
    (run sampleFit samplePredict ({ prepared_data := some "data" } : Args)
        (some sampleTable)).trace.countP Event.isOutput = 1 := by
  refine ⟨by decide, by decide, by decide⟩

/-- C7 (amended): the two path options are optional in `parse_args` (no
`required=True`), so omitting them parses successfully to None and never
produces a usage message.  The failure is a later uncaught TypeError: with
`--prepared_data` absent the run stops right after the banner prints and
the directory listing, before reading data or writing anything; with
`--model_output` absent it stops only at the final model write, after
fitting, metric logging and saving the plot. -/
theorem c7_missing_path_late_failure {Model : Type}
    (fit : RFConfig → List (List Cell) → List Cell → Option Model)
    (predict : Model → List (List Cell) → List ℚ) :
    (∀ v, parse_args ["--prepared_data", v] =
      .ok ({ prepared_data := some v } : Args)) ∧
    (∀ v, parse_args ["--model_output", v] =
      .ok ({ model_output := some v } : Args)) ∧
    (∀ (a : Args) (csv : Option Table), a.prepared_data = none →
      (run fit predict a csv).result =
        .error "TypeError: expected str, bytes or os.PathLike object, not NoneType" ∧
      (run fit predict a csv).trace = preTrace a ∧
      (run fit predict a csv).trace.countP Event.isOutput = 0) ∧
    (∀ (a : Args) (d : String) (t : Table) (y : List Cell)
        (X : List (List Cell)) (m : Model),
      a.prepared_data = some d → a.model_output = none →
      getCol t TARGET_COL = some y → selectCols t featureCols = some X →
      fit (rfConfig a) X y = some m →
      (run fit predict a (some t)).result =
        .error "TypeError: expected str, bytes or os.PathLike object, not NoneType" ∧
      Event.savePng "regression_results.png" ∈ (run fit predict a (some t)).trace ∧
      (run fit predict a (some t)).trace.countP Event.isWriteModel = 0) := by
  refine ⟨fun v => rfl, fun v => rfl, ?_, ?_⟩
  · intro a csv hpd
    refine ⟨?_, ?_, ?_⟩ <;> cases csv <;>
      simp [run, hpd, preTrace, Event.isOutput]
  · intro a d t y X m hpd hmo hy hX hm
    refine ⟨?_, ?_, ?_⟩ <;>
      simp [run, hpd, hmo, hy, hX, hm, loadTrace, preTrace, paramTrace,
        metricTrace, Event.isWriteModel]

/-- C7 witness: a concrete run with `--model_output` omitted that reaches
the plot-saving stage and then fails. -/
theorem c7_missing_path_late_failure_witness :
    ({ prepared_data := some "data" } : Args).prepared_data = some "data" ∧
    ({ prepared_data := some "data" } : Args).model_output = none ∧
    getCol sampleTable TARGET_COL = some [Cell.num 12] ∧
    (run sampleFit samplePredict ({ prepared_data := some "data" } : Args)
        (some sampleTable)).result =
      .error "TypeError: expected str, bytes or os.PathLike object, not NoneType" := by
  have h := (c7_missing_path_late_failure sampleFit samplePredict).2.2.2
    { prepared_data := some "data" } "data" sampleTable [Cell.num 12]
    [[.num 2], [.num 40], [.num (-73)], [.num 1], [.num 40], [.num (-73)],
     [.num 3], [.num 5], [.num 17], [.num 9], [.num 30], [.num 0],
     [.num 3], [.num 5], [.num 17], [.num 9], [.num 45], [.num 0],
     [.str "N"], [.str "1"]] ()
    rfl rfl (by decide) (by decide) rfl
  exact ⟨rfl, rfl, by decide, h.1⟩

/-- C2, counterexample: a one-row train.csv reaches evaluation (the forest
fits and predicts on one sample), and the run then logs r2 = NaN, which is
not a real number at most 1; the original claim r2 <= 1.0 fails there. -/
theorem c2_one_row_r2_nan_refuted :
    getCol sampleTable TARGET_COL = some sampleY ∧
    sampleY.length < 2 ∧
    findMetric (run sampleFit samplePredict sampleArgs (some sampleTable)).trace
      "train r2" = some MetricVal.nan ∧
    MetricVal.nan.toReal = none := by
  refine ⟨by decide, by decide, by rfl, rfl⟩

/-- C2 (amended): whenever a run logs the evaluation metrics, the logged
rmse is exactly the square root of the logged mse; the logged r2 is either
NaN (the library's convention on fewer than two samples, which is exactly
when `r2_score` returns NaN) or a real number at most 1. -/
theorem c2_metric_relations {Model : Type}
    (fit : RFConfig → List (List Cell) → List Cell → Option Model)
    (predict : Model → List (List Cell) → List ℚ)
    (a : Args) (csv : Option Table) (u v w : MetricVal)
    (hu : findMetric (run fit predict a csv).trace "train rmse" = some u)
    (hv : findMetric (run fit predict a csv).trace "train mse" = some v)
    (hw : findMetric (run fit predict a csv).trace "train r2" = some w) :
    u.toReal = v.toReal.map Real.sqrt ∧
    (w = MetricVal.nan ∨ ∃ r : ℝ, w.toReal = some r ∧ r ≤ 1) ∧
    (∀ ys yh : List ℚ, r2_score ys yh = MetricVal.nan ↔ ys.length < 2) := by
  cases hpd : a.prepared_data with
  | none => simp [run, hpd, preTrace, findMetric] at hu
  | some d =>
    cases csv with
    | none => simp [run, hpd, preTrace, findMetric] at hu
    | some t =>
      cases hy : getCol t TARGET_COL with
      | none => simp [run, hpd, hy, loadTrace, preTrace, findMetric] at hu
      | some y =>
        cases hX : selectCols t featureCols with
        | none => simp [run, hpd, hy, hX, loadTrace, preTrace, findMetric] at hu
        | some X =>
          cases hm : fit (rfConfig a) X y with
          | none =>
            simp [run, hpd, hy, hX, hm, loadTrace, preTrace, paramTrace,
              findMetric] at hu
          | some m =>
            cases hmo : a.model_output with
            | none =>
              simp [run, hpd, hy, hX, hm, hmo, loadTrace, preTrace,
                paramTrace, metricTrace, findMetric] at hu hv hw
              subst hu
              subst hv
              subst hw
              refine ⟨by simp [MetricVal.toReal], ?_,
                fun ys yh => r2_score_nan_iff ys yh⟩
              rcases r2_score_cases (y.map Cell.toRat) (predict m X) with h | ⟨q, hq, hle⟩
              · exact Or.inl h
              · exact Or.inr ⟨(q : ℝ), by simp [hq, MetricVal.toReal],
                  by exact_mod_cast hle⟩
            | some mo =>
              simp [run, hpd, hy, hX, hm, hmo, loadTrace, preTrace,
                paramTrace, metricTrace, findMetric] at hu hv hw
              subst hu
              subst hv
              subst hw
              refine ⟨by simp [MetricVal.toReal], ?_,
                fun ys yh => r2_score_nan_iff ys yh⟩
              rcases r2_score_cases (y.map Cell.toRat) (predict m X) with h | ⟨q, hq, hle⟩
              · exact Or.inl h
              · exact Or.inr ⟨(q : ℝ), by simp [hq, MetricVal.toReal],
                  by exact_mod_cast hle⟩

/-- C2 witness: on the one-row sample run the logged rmse is the symbolic
square root of the logged mse, and the logged r2 falls in the NaN branch. -/
theorem c2_metric_relations_witness :
    findMetric (run sampleFit samplePredict sampleArgs (some sampleTable)).trace
      "train rmse" = some (.sqrtOf (mean_squared_error [(12 : ℚ)] [])) ∧
    findMetric (run sampleFit samplePredict sampleArgs (some sampleTable)).trace
      "train mse" = some (.rat (mean_squared_error [(12 : ℚ)] [])) ∧
    findMetric (run sampleFit samplePredict sampleArgs (some sampleTable)).trace
      "train r2" = some MetricVal.nan ∧
    ((MetricVal.sqrtOf (mean_squared_error [(12 : ℚ)] [])).toReal =
      (MetricVal.rat (mean_squared_error [(12 : ℚ)] [])).toReal.map Real.sqrt ∧
     (MetricVal.nan = MetricVal.nan ∨
      ∃ r : ℝ, MetricVal.nan.toReal = some r ∧ r ≤ 1) ∧
     (∀ ys yh : List ℚ, r2_score ys yh = MetricVal.nan ↔ ys.length < 2)) :=
  ⟨by rfl, by rfl, by rfl,
   c2_metric_relations sampleFit samplePredict sampleArgs (some sampleTable)
     (.sqrtOf (mean_squared_error [(12 : ℚ)] []))
     (.rat (mean_squared_error [(12 : ℚ)] []))
     MetricVal.nan (by rfl) (by rfl) (by rfl)⟩

/-- C6: evaluation reuses the training set.  The single fit call receives
the full feature matrix and target selected from the loaded table, the
prediction call receives exactly the same feature matrix, and each of the
four logged metrics compares those predictions against the same target
vector used for fitting. -/
theorem c6_evaluates_on_training_set {Model : Type}
    (fit : RFConfig → List (List Cell) → List Cell → Option Model)
    (predict : Model → List (List Cell) → List ℚ)
    (a : Args) (d : String) (t : Table)
    (y : List Cell) (X : List (List Cell)) (m : Model)
    (hpd : a.prepared_data = some d)
    (hy : getCol t TARGET_COL = some y)
    (hX : selectCols t featureCols = some X)
    (hm : fit (rfConfig a) X y = some m) :
    Event.fitEv (rfConfig a) X y ∈ (run fit predict a (some t)).trace ∧
    Event.predictEv X ∈ (run fit predict a (some t)).trace ∧
    (run fit predict a (some t)).trace.countP Event.isFit = 1 ∧
    findMetric (run fit predict a (some t)).trace "train r2" =
      some (r2_score (y.map Cell.toRat) (predict m X)) ∧
    findMetric (run fit predict a (some t)).trace "train mse" =
      some (.rat (mean_squared_error (y.map Cell.toRat) (predict m X))) ∧
    findMetric (run fit predict a (some t)).trace "train rmse" =
      some (.sqrtOf (mean_squared_error (y.map Cell.toRat) (predict m X))) ∧
    findMetric (run fit predict a (some t)).trace "train mae" =
      some (.rat (mean_absolute_error (y.map Cell.toRat) (predict m X))) := by
  cases hmo : a.model_output with
  | none =>
    refine ⟨?_, ?_, ?_, ?_, ?_, ?_, ?_⟩ <;>
      simp [run, hpd, hy, hX, hm, hmo, loadTrace, preTrace, paramTrace,
        metricTrace, findMetric, Event.isFit, List.countP_cons]
  | some mo =>
    refine ⟨?_, ?_, ?_, ?_, ?_, ?_, ?_⟩ <;>
      simp [run, hpd, hy, hX, hm, hmo, loadTrace, preTrace, paramTrace,
        metricTrace, findMetric, Event.isFit, List.countP_cons]

/-- C6 witness: the sample run fits and predicts on the same matrix. -/
theorem c6_evaluates_on_training_set_witness :
    sampleArgs.prepared_data = some "data" ∧
    getCol sampleTable TARGET_COL = some sampleY ∧
    selectCols sampleTable featureCols = some sampleX ∧
    sampleFit (rfConfig sampleArgs) sampleX sampleY = some () ∧
    (Event.fitEv (rfConfig sampleArgs) sampleX sampleY ∈
      (run sampleFit samplePredict sampleArgs (some sampleTable)).trace ∧
     Event.predictEv sampleX ∈
      (run sampleFit samplePredict sampleArgs (some sampleTable)).trace ∧
     (run sampleFit samplePredict sampleArgs (some sampleTable)).trace.countP
       Event.isFit = 1 ∧
     findMetric (run sampleFit samplePredict sampleArgs (some sampleTable)).trace
       "train r2" = some (r2_score (sampleY.map Cell.toRat)
         (samplePredict () sampleX)) ∧
     findMetric (run sampleFit samplePredict sampleArgs (some sampleTable)).trace
       "train mse" = some (.rat (mean_squared_error (sampleY.map Cell.toRat)
         (samplePredict () sampleX))) ∧
     findMetric (run sampleFit samplePredict sampleArgs (some sampleTable)).trace
       "train rmse" = some (.sqrtOf (mean_squared_error (sampleY.map Cell.toRat)
         (samplePredict () sampleX))) ∧
     findMetric (run sampleFit samplePredict sampleArgs (some sampleTable)).trace
       "train mae" = some (.rat (mean_absolute_error (sampleY.map Cell.toRat)
         (samplePredict () sampleX)))) :=
  ⟨rfl, by decide, by decide, rfl,
   c6_evaluates_on_training_set sampleFit samplePredict sampleArgs "data"
     sampleTable sampleY sampleX () rfl (by decide) (by decide) rfl⟩

/-- C8: every hyperparameter log event precedes the fit invocation, no
metric is logged before it, and none of the events after the fit is a
parameter log; when the fit raises, the trace ends at the fit event, so
the hyperparameters are logged but no metric is; when the fit succeeds,
exactly four metrics are logged after it. -/
theorem c8_params_before_fit_metrics_after {Model : Type}
    (fit : RFConfig → List (List Cell) → List Cell → Option Model)
    (predict : Model → List (List Cell) → List ℚ)
    (a : Args) (d : String) (t : Table) (y : List Cell) (X : List (List Cell))
    (hpd : a.prepared_data = some d)
    (hy : getCol t TARGET_COL = some y)
    (hX : selectCols t featureCols = some X) :
    ∃ pre post, (run fit predict a (some t)).trace =
      pre ++ Event.fitEv (rfConfig a) X y :: post ∧
      Event.logParam "n_estimators" (.int a.regressor__n_estimators) ∈ pre ∧
      Event.logParam "bootstrap" (.int a.regressor__bootstrap) ∈ pre ∧
      Event.logParam "max_depth" (.int a.regressor__max_depth) ∈ pre ∧
      Event.logParam "max_features" (.str a.regressor__max_features) ∈ pre ∧
      Event.logParam "min_samples_leaf" (.int a.regressor__min_samples_leaf) ∈ pre ∧
      Event.logParam "min_samples_split" (.int a.regressor__min_samples_split) ∈ pre ∧
      pre.countP Event.isLogMetric = 0 ∧
      post.countP Event.isLogParam = 0 ∧
      (fit (rfConfig a) X y = none → post = [] ∧
        (run fit predict a (some t)).trace.countP Event.isLogMetric = 0) ∧
      (∀ m, fit (rfConfig a) X y = some m → post.countP Event.isLogMetric = 4) := by
  cases hm : fit (rfConfig a) X y with
  | none =>
    refine ⟨loadTrace a d ++ paramTrace a, [], ?_, ?_, ?_, ?_, ?_, ?_, ?_, ?_, ?_, ?_, ?_⟩ <;>
      simp [run, hpd, hy, hX, hm, loadTrace, preTrace, paramTrace,
        Event.isLogMetric, Event.isLogParam, List.countP_cons]
  | some m =>
    cases hmo : a.model_output with
    | none =>
      refine ⟨loadTrace a d ++ paramTrace a,
        Event.predictEv X ::
          metricTrace (y.map Cell.toRat) (predict m X) ++
          [.savePng "regression_results.png", .logArtifact "regression_results.png"],
        ?_, ?_, ?_, ?_, ?_, ?_, ?_, ?_, ?_, ?_, ?_⟩ <;>
        simp [run, hpd, hy, hX, hm, hmo, loadTrace, preTrace, paramTrace,
          metricTrace, Event.isLogMetric, Event.isLogParam, List.countP_cons]
    | some mo =>
      refine ⟨loadTrace a d ++ paramTrace a,
        Event.predictEv X ::
          metricTrace (y.map Cell.toRat) (predict m X) ++
          [.savePng "regression_results.png", .logArtifact "regression_results.png",
           .writeModel (mo ++ "/model.pkl")],
        ?_, ?_, ?_, ?_, ?_, ?_, ?_, ?_, ?_, ?_, ?_⟩ <;>
        simp [run, hpd, hy, hX, hm, hmo, loadTrace, preTrace, paramTrace,
          metricTrace, Event.isLogMetric, Event.isLogParam, List.countP_cons]

/-- C8 witness: the ordering decomposition on the sample run. -/
theorem c8_params_before_fit_metrics_after_witness :
    sampleArgs.prepared_data = some "data" ∧
    getCol sampleTable TARGET_COL = some sampleY ∧
    selectCols sampleTable featureCols = some sampleX ∧
    (∃ pre post, (run sampleFit samplePredict sampleArgs (some sampleTable)).trace =
      pre ++ Event.fitEv (rfConfig sampleArgs) sampleX sampleY :: post ∧
      Event.logParam "n_estimators" (.int sampleArgs.regressor__n_estimators) ∈ pre ∧
      Event.logParam "bootstrap" (.int sampleArgs.regressor__bootstrap) ∈ pre ∧
      Event.logParam "max_depth" (.int sampleArgs.regressor__max_depth) ∈ pre ∧
      Event.logParam "max_features" (.str sampleArgs.regressor__max_features) ∈ pre ∧
      Event.logParam "min_samples_leaf" (.int sampleArgs.regressor__min_samples_leaf) ∈ pre ∧
      Event.logParam "min_samples_split" (.int sampleArgs.regressor__min_samples_split) ∈ pre ∧
      pre.countP Event.isLogMetric = 0 ∧
      post.countP Event.isLogParam = 0 ∧
      (sampleFit (rfConfig sampleArgs) sampleX sampleY = none → post = [] ∧
        (run sampleFit samplePredict sampleArgs (some sampleTable)).trace.countP
          Event.isLogMetric = 0) ∧
      (∀ m, sampleFit (rfConfig sampleArgs) sampleX sampleY = some m →
        post.countP Event.isLogMetric = 4)) :=
  ⟨rfl, by decide, by decide,
   c8_params_before_fit_metrics_after sampleFit samplePredict sampleArgs "data"
     sampleTable sampleY sampleX rfl (by decide) (by decide)⟩

/-- C9: a fully successful run writes the plot to the bare relative path
`regression_results.png` (the current working directory, with no directory
component), logs it as an artifact, and only afterwards writes the model
to `<model_output>/model.pkl`; no output is written earlier. -/
theorem c9_output_locations {Model : Type}
    (fit : RFConfig → List (List Cell) → List Cell → Option Model)
    (predict : Model → List (List Cell) → List ℚ)
    (a : Args) (d mo : String) (t : Table) (y : List Cell)
    (X : List (List Cell)) (m : Model)
    (hpd : a.prepared_data = some d) (hmo : a.model_output = some mo)
    (hy : getCol t TARGET_COL = some y)
    (hX : selectCols t featureCols = some X)
    (hm : fit (rfConfig a) X y = some m) :
    (run fit predict a (some t)).result = RResult.ok ∧
    ∃ pre, (run fit predict a (some t)).trace =
      pre ++ [Event.savePng "regression_results.png",
              Event.logArtifact "regression_results.png",
              Event.writeModel (mo ++ "/model.pkl")] ∧
      pre.countP Event.isOutput = 0 := by
  refine ⟨?_, loadTrace a d ++ paramTrace a ++
    [Event.fitEv (rfConfig a) X y, Event.predictEv X] ++
    metricTrace (y.map Cell.toRat) (predict m X), ?_, ?_⟩ <;>
    simp [run, hpd, hmo, hy, hX, hm, loadTrace, preTrace, paramTrace,
      metricTrace, Event.isOutput, List.countP_cons]

/-- C9 witness: output order and locations on the sample run. -/
theorem c9_output_locations_witness :
    sampleArgs.prepared_data = some "data" ∧
    sampleArgs.model_output = some "out" ∧
    getCol sampleTable TARGET_COL = some sampleY ∧
    selectCols sampleTable featureCols = some sampleX ∧
    sampleFit (rfConfig sampleArgs) sampleX sampleY = some () ∧
    ((run sampleFit samplePredict sampleArgs (some sampleTable)).result =
      RResult.ok ∧
     ∃ pre, (run sampleFit samplePredict sampleArgs (some sampleTable)).trace =
       pre ++ [Event.savePng "regression_results.png",
               Event.logArtifact "regression_results.png",
               Event.writeModel ("out" ++ "/model.pkl")] ∧
       pre.countP Event.isOutput = 0) :=
  ⟨rfl, rfl, by decide, by decide, rfl,
   c9_output_locations sampleFit samplePredict sampleArgs "data" "out"
     sampleTable sampleY sampleX () rfl rfl (by decide) (by decide) rfl⟩

/-- C10: the feature matrix handed to the pipeline consists of exactly the
18 numeric columns followed by the 2 nominal columns (the ordinal group is
empty), the target column `cost` is not among them, and the single fit
invocation receives that matrix together with the target vector taken from
the `cost` column only. -/
theorem c10_no_target_leakage {Model : Type}
    (fit : RFConfig → List (List Cell) → List Cell → Option Model)
    (predict : Model → List (List Cell) → List ℚ)
    (a : Args) (d : String) (t : Table) (y : List Cell) (X : List (List Cell))
    (hpd : a.prepared_data = some d)
    (hy : getCol t TARGET_COL = some y)
    (hX : selectCols t featureCols = some X) :
    featureCols = NUMERIC_COLS ++ CAT_NOM_COLS ∧
    TARGET_COL ∉ featureCols ∧
    Event.fitEv (rfConfig a) X y ∈ (run fit predict a (some t)).trace ∧
    (run fit predict a (some t)).trace.countP Event.isFit = 1 := by
  refine ⟨by decide, by decide, ?_, ?_⟩ <;>
    cases hm : fit (rfConfig a) X y <;> cases hmo : a.model_output <;>
      simp [run, hpd, hy, hX, hm, hmo, loadTrace, preTrace, paramTrace,
        metricTrace, Event.isFit, List.countP_cons]

/-- C10 witness: on the sample run the fit input is the 20 feature columns
and the cost column only. -/
theorem c10_no_target_leakage_witness :
    sampleArgs.prepared_data = some "data" ∧
    getCol sampleTable TARGET_COL = some sampleY ∧
    selectCols sampleTable featureCols = some sampleX ∧
    (featureCols = NUMERIC_COLS ++ CAT_NOM_COLS ∧
     TARGET_COL ∉ featureCols ∧
     Event.fitEv (rfConfig sampleArgs) sampleX sampleY ∈
       (run sampleFit samplePredict sampleArgs (some sampleTable)).trace ∧
     (run sampleFit samplePredict sampleArgs (some sampleTable)).trace.countP
       Event.isFit = 1) :=
  ⟨rfl, by decide, by decide,
   c10_no_target_leakage sampleFit samplePredict sampleArgs "data" sampleTable
     sampleY sampleX rfl (by decide) (by decide)⟩

end Train
